import Mathlib

/-!
Verification of the `Mat2` component of a small linear-algebra library
(`src/src/f32/mat2.rs`): a 2x2 column-major matrix stored as four packed
scalar lanes.  The Rust code works over IEEE-754 `f32`; this development
models the scalar lanes as exact rationals (`ℚ`), so every algebraic
identity below is about the operation structure of the code (which lanes
are read, written and combined, and with which ring operations), not about
floating-point rounding.  Claims whose content is specifically IEEE-754
non-finite behaviour are outside this embedding.
-/

/-- Modelled from the spec: `Vec2`, an external leaf collaborator — a pair
of scalars `(x, y)` with value semantics (spec section 3). -/
structure Vec2 where
  x : ℚ
  y : ℚ
deriving DecidableEq

namespace Vec2

/-- `Vec2::new(x, y)`. -/
def new (x y : ℚ) : Vec2 := ⟨x, y⟩

end Vec2

/-- Modelled from the spec: `Vec4`, an external leaf collaborator — a
4-lane scalar vector supporting elementwise add/sub/mul, division by a
scalar, and scalar splat (spec sections 3 and 4); used only as `Mat2`'s
storage backing. -/
structure Vec4 where
  x : ℚ
  y : ℚ
  z : ℚ
  w : ℚ
deriving DecidableEq

namespace Vec4

/-- `Vec4::new(x, y, z, w)`. -/
def new (x y z w : ℚ) : Vec4 := ⟨x, y, z, w⟩

/-- `Vec4::zero()`. -/
def zero : Vec4 := ⟨0, 0, 0, 0⟩

/-- `Vec4::splat(s)`. -/
def splat (s : ℚ) : Vec4 := ⟨s, s, s, s⟩

/-- Modelled from the spec: elementwise addition of two 4-lane vectors. -/
def add (a b : Vec4) : Vec4 := ⟨a.x + b.x, a.y + b.y, a.z + b.z, a.w + b.w⟩

/-- Modelled from the spec: elementwise subtraction of two 4-lane vectors. -/
def sub (a b : Vec4) : Vec4 := ⟨a.x - b.x, a.y - b.y, a.z - b.z, a.w - b.w⟩

/-- Modelled from the spec: elementwise multiplication of two 4-lane vectors. -/
def mul (a b : Vec4) : Vec4 := ⟨a.x * b.x, a.y * b.y, a.z * b.z, a.w * b.w⟩

/-- Modelled from the spec: division of every lane by a scalar
(the `Vec4 / f32` operator used in `Mat2::inverse`). -/
def divScalar (a : Vec4) (s : ℚ) : Vec4 := ⟨a.x / s, a.y / s, a.z / s, a.w / s⟩

end Vec4

/-- `pub struct Mat2(pub(crate) Vec4);` — a 2x2 column-major matrix whose
four storage lanes `(m00, m10, m01, m11)` live in a wrapped `Vec4`:
`x_axis = (m00, m10)` in lanes 0-1, `y_axis = (m01, m11)` in lanes 2-3. -/
structure Mat2 where
  m : Vec4
deriving DecidableEq

namespace Mat2

/-- `Mat2::zero()`. -/
def zero : Mat2 := ⟨Vec4.zero⟩

/-- `Mat2::identity()`: lanes `(1, 0, 0, 1)`. -/
def identity : Mat2 := ⟨Vec4.new 1 0 0 1⟩

/-- `Mat2::from_cols(x_axis, y_axis)`: packs `x_axis` into lanes 0-1 and
`y_axis` into lanes 2-3. -/
def from_cols (x_axis y_axis : Vec2) : Mat2 :=
  ⟨Vec4.new x_axis.x x_axis.y y_axis.x y_axis.y⟩

/-- Deprecated `Mat2::new(x_axis, y_axis)`, which forwards to `from_cols`. -/
def new (x_axis y_axis : Vec2) : Mat2 := from_cols x_axis y_axis

/-- `Mat2::from_cols_array(&[f32; 4])`: column-major array, no validation. -/
def from_cols_array (a : Fin 4 → ℚ) : Mat2 :=
  ⟨Vec4.new (a 0) (a 1) (a 2) (a 3)⟩

/-- `Mat2::to_cols_array(&self)`: exports the four lanes column-major. -/
def to_cols_array (self : Mat2) : Fin 4 → ℚ :=
  ![self.m.x, self.m.y, self.m.z, self.m.w]

/-- `Mat2::from_cols_array_2d(&[[f32; 2]; 2])`: nested column-major array. -/
def from_cols_array_2d (a : Fin 2 → Fin 2 → ℚ) : Mat2 :=
  ⟨Vec4.new (a 0 0) (a 0 1) (a 1 0) (a 1 1)⟩

/-- `Mat2::to_cols_array_2d(&self)`: `[[x0, y0], [x1, y1]]`. -/
def to_cols_array_2d (self : Mat2) : Fin 2 → Fin 2 → ℚ :=
  ![![self.m.x, self.m.y], ![self.m.z, self.m.w]]

/-- `Mat2::from_scale(scale)`: lanes `(scale.x, 0, 0, scale.y)`. -/
def from_scale (scale : Vec2) : Mat2 := ⟨Vec4.new scale.x 0 0 scale.y⟩

/-- `Mat2::set_x_axis(&mut self, x)`: writes `x.x` to lane 0 and `x.y` to
lane 1 through the `[f32; 4]` view; modelled functionally as returning the
updated receiver. -/
def set_x_axis (self : Mat2) (x : Vec2) : Mat2 :=
  ⟨Vec4.new x.x x.y self.m.z self.m.w⟩

/-- `Mat2::set_y_axis(&mut self, y)`: writes `y.x` to lane 2 and `y.y` to
lane 3 through the `[f32; 4]` view; modelled functionally. -/
def set_y_axis (self : Mat2) (y : Vec2) : Mat2 :=
  ⟨Vec4.new self.m.x self.m.y y.x y.y⟩

/-- `Mat2::x_axis(&self)`: reads lanes 0-1. -/
def x_axis (self : Mat2) : Vec2 := Vec2.new self.m.x self.m.y

/-- `Mat2::y_axis(&self)`: reads lanes 2-3. -/
def y_axis (self : Mat2) : Vec2 := Vec2.new self.m.z self.m.w

/-- `Mat2::transpose(&self)`: `(m00, m01, m10, m11) -> (m00, m10, m01, m11)`,
i.e. the two middle storage lanes are exchanged. -/
def transpose (self : Mat2) : Mat2 :=
  ⟨Vec4.new self.m.x self.m.z self.m.y self.m.w⟩

/-- `Mat2::determinant(&self)`: `a * d - b * c` for lanes `(a, b, c, d)`. -/
def determinant (self : Mat2) : ℚ :=
  self.m.x * self.m.w - self.m.y * self.m.z

/-- `Mat2::inverse(&self)`: `tmp = Vec4::new(1, -1, -1, 1) / det;
Self(Vec4::new(d, b, c, a) * tmp)`.  The release build's `glam_assert` is a
no-op, so the computation is unconditional. -/
def inverse (self : Mat2) : Mat2 :=
  let a := self.m.x
  let b := self.m.y
  let c := self.m.z
  let d := self.m.w
  let det := a * d - b * c
  let tmp := Vec4.divScalar (Vec4.new 1 (-1) (-1) 1) det
  ⟨Vec4.mul (Vec4.new d b c a) tmp⟩

/-- `Mat2::mul_vec2(&self, rhs)`: broadcast `rhs.x` across lanes 0-1 and
`rhs.y` across lanes 2-3, elementwise-multiply against the storage, then
pairwise-sum. -/
def mul_vec2 (self : Mat2) (rhs : Vec2) : Vec2 :=
  let rhs4 := Vec4.new rhs.x rhs.x rhs.y rhs.y
  let tmp := Vec4.mul self.m rhs4
  Vec2.new (tmp.x + tmp.z) (tmp.y + tmp.w)

/-- `Mat2::mul_mat2(&self, rhs)`: applies `mul_vec2` to each column of
`rhs` and repacks with `from_cols`. -/
def mul_mat2 (self rhs : Mat2) : Mat2 :=
  from_cols (self.mul_vec2 (Vec2.new rhs.m.x rhs.m.y))
    (self.mul_vec2 (Vec2.new rhs.m.z rhs.m.w))

/-- `Mat2::add_mat2(&self, rhs)`: elementwise lane addition. -/
def add_mat2 (self rhs : Mat2) : Mat2 := ⟨Vec4.add self.m rhs.m⟩

/-- `Mat2::sub_mat2(&self, rhs)`: elementwise lane subtraction. -/
def sub_mat2 (self rhs : Mat2) : Mat2 := ⟨Vec4.sub self.m rhs.m⟩

/-- `Mat2::mul_scalar(&self, rhs)`: every lane multiplied by the splatted
scalar. -/
def mul_scalar (self : Mat2) (rhs : ℚ) : Mat2 :=
  ⟨Vec4.mul self.m (Vec4.splat rhs)⟩

end Mat2

/-- Free function `mat2(x_axis, y_axis)`, which forwards to
`Mat2::from_cols`. -/
def mat2 (x_axis y_axis : Vec2) : Mat2 := Mat2.from_cols x_axis y_axis

/-- Claim C1: for every `Mat2` with storage lanes `(a, b, c, d)` whose
determinant `det = a*d - b*c` is nonzero, `inverse()` returns the matrix
with lanes `(d/det, -b/det, -c/det, a/det)`. -/
theorem Mat2.inverse_formula (a b c d : ℚ)
    (_h : (Mat2.mk (Vec4.new a b c d)).determinant ≠ 0) :
    (Mat2.mk (Vec4.new a b c d)).inverse =
      Mat2.mk (Vec4.new (d / (a * d - b * c)) (-b / (a * d - b * c))
        (-c / (a * d - b * c)) (a / (a * d - b * c))) := by
  simp only [Mat2.inverse, Vec4.new, Vec4.divScalar, Vec4.mul, Mat2.mk.injEq,
    Vec4.mk.injEq]
  refine ⟨by ring, by ring, by ring, by ring⟩

/-- Witness for C1 at the concrete matrix with lanes `(1, 2, 3, 4)`,
whose determinant is `-2`. -/
theorem Mat2.inverse_formula_witness :
    (Mat2.mk (Vec4.new 1 2 3 4)).determinant ≠ 0 ∧
    (Mat2.mk (Vec4.new 1 2 3 4)).inverse =
      Mat2.mk (Vec4.new (4 / (1 * 4 - 2 * 3)) (-2 / (1 * 4 - 2 * 3))
        (-3 / (1 * 4 - 2 * 3)) (1 / (1 * 4 - 2 * 3))) :=
  ⟨by norm_num [Mat2.determinant, Vec4.new],
    Mat2.inverse_formula 1 2 3 4 (by norm_num [Mat2.determinant, Vec4.new])⟩

/-- Claim C2: for every matrix with lanes `(m00, m10, m01, m11)` and every
vector `(rx, ry)`, `mul_vec2` returns `(m00*rx + m01*ry, m10*rx + m11*ry)`,
which is `x_axis * rhs.x + y_axis * rhs.y` componentwise. -/
theorem Mat2.mul_vec2_formula (m00 m10 m01 m11 rx ry : ℚ) :
    (Mat2.mk (Vec4.new m00 m10 m01 m11)).mul_vec2 (Vec2.new rx ry) =
      Vec2.new (m00 * rx + m01 * ry) (m10 * rx + m11 * ry) := rfl

/-- Claim C3: each column of `a.mul_mat2(&b)` is `a.mul_vec2` applied to
the corresponding column of `b`, i.e. the product equals
`from_cols(a.mul_vec2(b.x_axis()), a.mul_vec2(b.y_axis()))`. -/
theorem Mat2.mul_mat2_by_columns (a b : Mat2) :
    a.mul_mat2 b = Mat2.from_cols (a.mul_vec2 b.x_axis) (a.mul_vec2 b.y_axis) := rfl

/-- Claim C4: `from_cols_array` / `to_cols_array` and `from_cols_array_2d` /
`to_cols_array_2d` are exact mutual inverses on every input, with no
normalization of any lane. -/
theorem Mat2.cols_array_roundtrip :
    (∀ a : Fin 4 → ℚ, (Mat2.from_cols_array a).to_cols_array = a) ∧
    (∀ A : Mat2, Mat2.from_cols_array A.to_cols_array = A) ∧
    (∀ a : Fin 2 → Fin 2 → ℚ, (Mat2.from_cols_array_2d a).to_cols_array_2d = a) ∧
    (∀ A : Mat2, Mat2.from_cols_array_2d A.to_cols_array_2d = A) := by
  refine ⟨fun a => ?_, fun A => rfl, fun a => ?_, fun A => rfl⟩
  · funext i
    fin_cases i <;> rfl
  · funext i j
    fin_cases i <;> fin_cases j <;> rfl

/-- Claim C5: `identity().mul_mat2(&m) == m` and
`m.mul_mat2(&identity()) == m` for every matrix `m`, exactly. -/
theorem Mat2.identity_mul_laws (m : Mat2) :
    Mat2.identity.mul_mat2 m = m ∧ m.mul_mat2 Mat2.identity = m := by
  obtain ⟨⟨a, b, c, d⟩⟩ := m
  constructor <;>
    simp [Mat2.mul_mat2, Mat2.mul_vec2, Mat2.from_cols, Mat2.identity,
      Vec4.new, Vec4.mul, Vec2.new]

/-- Claim C6: `transpose` swaps only storage lanes 1 and 2, leaving lanes
0 and 3 unchanged, and is an involution: `m.transpose().transpose() == m`
exactly for every `m`. -/
theorem Mat2.transpose_involution (m : Mat2) :
    m.transpose.transpose = m ∧
    m.transpose = Mat2.mk (Vec4.new m.m.x m.m.z m.m.y m.m.w) := ⟨rfl, rfl⟩

/-- Claim C8: `set_x_axis(v)` overwrites only storage lanes 0 and 1
(leaving `y_axis()` unchanged) and `set_y_axis(v)` overwrites only lanes 2
and 3 (leaving `x_axis()` unchanged); no other lane is modified. -/
theorem Mat2.set_axis_frame (m : Mat2) (v : Vec2) :
    ((m.set_x_axis v).m.x = v.x ∧ (m.set_x_axis v).m.y = v.y ∧
      (m.set_x_axis v).m.z = m.m.z ∧ (m.set_x_axis v).m.w = m.m.w ∧
      (m.set_x_axis v).y_axis = m.y_axis) ∧
    ((m.set_y_axis v).m.z = v.x ∧ (m.set_y_axis v).m.w = v.y ∧
      (m.set_y_axis v).m.x = m.m.x ∧ (m.set_y_axis v).m.y = m.m.y ∧
      (m.set_y_axis v).x_axis = m.x_axis) :=
  ⟨⟨rfl, rfl, rfl, rfl, rfl⟩, ⟨rfl, rfl, rfl, rfl, rfl⟩⟩

/-- Claim C9: `m.transpose().determinant() == m.determinant()` for every
`m`: transposing only exchanges the two factors of the `b*c` product. -/
theorem Mat2.transpose_determinant (m : Mat2) :
    m.transpose.determinant = m.determinant := by
  obtain ⟨⟨a, b, c, d⟩⟩ := m
  simp only [Mat2.transpose, Mat2.determinant, Vec4.new]
  ring

/-- Claim C10: the free function `mat2`, the deprecated constructor
`Mat2::new` and `Mat2::from_cols` all return exactly the same matrix for
every pair of column vectors. -/
theorem Mat2.constructor_agreement (x y : Vec2) :
    mat2 x y = Mat2.from_cols x y ∧ Mat2.new x y = Mat2.from_cols x y :=
  ⟨rfl, rfl⟩
